import Mathlib

/-!
Verification of the divisive clustering core of `ev-trip-sim` (`src/Cluster.py`)
against its natural-language specification.

The Python source is shallowly embedded: floats become real numbers (exact
arithmetic), fallible code returns `Except PyErr`, and the dynamic typing of
the constructor argument of `TreeCluster.__init__` is captured by an explicit
sum type.  Python function calls that can recurse are given an explicit fuel
parameter; exhausting the fuel is modelled as `PyErr.recursionError`, mirroring
the RecursionError CPython raises when the call stack overflows.
-/

namespace EvTripSim

open Real

/-- Modelled from the spec: the class `ChargeStation` lives in `classes.py`,
which is not under `src/`; the spec describes a Point as a station identifier
plus (latitude, longitude) in degrees.  It is a plain record, hence (as a
Python object with no `__iter__`) not iterable. -/
structure ChargeStation where
  ident : Nat
  latitude : ℝ
  longitude : ℝ

instance : Inhabited ChargeStation := ⟨⟨0, 0, 0⟩⟩

/-- The kinds of Python exceptions the embedded code can raise.
`insufficientPoints` is modelled from the spec: section 7 demands a distinct,
catchable `InsufficientPoints` error kind; the source never defines or raises
it (it is included here only so that statements can compare the raised kind
against the kind the spec demands). -/
inductive PyErr where
  | typeError
  | indexError
  | zeroDivisionError
  | attributeError
  | recursionError
  | insufficientPoints
deriving DecidableEq

/-- The argument of `math.acos` in `longitude_and_latitude_to_km`
(`src/Cluster.py` lines 166-173): the spherical law of cosines applied to the
already-converted angles.  Note the conversion factor taken from the source is
`(2 * pi) / 180`, not `pi / 180`. -/
noncomputable def cosine_sum (long1 lat1 long2 lat2 : ℝ) : ℝ :=
  let lat1_rad := ((2 * Real.pi) / 180) * lat1
  let long1_rad := ((2 * Real.pi) / 180) * long1
  let lat2_rad := ((2 * Real.pi) / 180) * lat2
  let long2_rad := ((2 * Real.pi) / 180) * long2
  let longitude_diff := |long1_rad - long2_rad|
  (Real.sin lat1_rad * Real.sin lat2_rad) +
    (Real.cos lat1_rad * Real.cos lat2_rad * Real.cos longitude_diff)

/-- `longitude_and_latitude_to_km` from `src/Cluster.py` (lines 147-174):
`EARTH_RADIUS_KM * math.acos(cosine_sum)`.  The source applies `math.acos`
directly to the cosine sum, with no clamping step. -/
noncomputable def longitude_and_latitude_to_km (long1 lat1 long2 lat2 : ℝ) : ℝ :=
  let EARTH_RADIUS_KM : ℝ := 6371
  EARTH_RADIUS_KM * Real.arccos (cosine_sum long1 lat1 long2 lat2)

/-- `chargers_to_km` from `src/Cluster.py` (lines 81-89): unpacks the two
stations and calls `longitude_and_latitude_to_km(long1, lat1, long2, lat2)`. -/
noncomputable def chargers_to_km (charger1 charger2 : ChargeStation) : ℝ :=
  longitude_and_latitude_to_km charger1.longitude charger1.latitude
    charger2.longitude charger2.latitude

/-- The great-circle reference definition stated by the spec (section 4.1) and
by claim C2: degrees are converted to radians by multiplying with `pi / 180`,
the central angle is the arccosine of the spherical law of cosines, and the
distance is `6371` times that angle.  This definition follows the words of the
spec and exists to be compared with `longitude_and_latitude_to_km` above. -/
noncomputable def great_circle_reference (long1 lat1 long2 lat2 : ℝ) : ℝ :=
  let lat1_rad := (Real.pi / 180) * lat1
  let long1_rad := (Real.pi / 180) * long1
  let lat2_rad := (Real.pi / 180) * lat2
  let long2_rad := (Real.pi / 180) * long2
  let angle := Real.arccos ((Real.sin lat1_rad * Real.sin lat2_rad) +
    (Real.cos lat1_rad * Real.cos lat2_rad * Real.cos |long1_rad - long2_rad|))
  6371 * angle

lemma chargers_to_km_nonneg (a b : ChargeStation) : 0 ≤ chargers_to_km a b := by
  unfold chargers_to_km longitude_and_latitude_to_km
  have := Real.arccos_nonneg (cosine_sum a.longitude a.latitude b.longitude b.latitude)
  positivity

/-- The cosine sum is bounded by 1 in absolute value for every real input:
in exact arithmetic the argument handed to `acos` is always in range. -/
lemma abs_cosine_sum_le_one (long1 lat1 long2 lat2 : ℝ) :
    |cosine_sum long1 lat1 long2 lat2| ≤ 1 := by
  unfold cosine_sum
  set a := ((2 * Real.pi) / 180) * lat1 with ha
  set b := ((2 * Real.pi) / 180) * lat2 with hb
  set c := |((2 * Real.pi) / 180) * long1 - ((2 * Real.pi) / 180) * long2| with hc
  have h1 : |Real.sin a * Real.sin b + Real.cos a * Real.cos b * Real.cos c| ≤
      |Real.sin a * Real.sin b| + |Real.cos a * Real.cos b * Real.cos c| := abs_add _ _
  have h2 : |Real.cos a * Real.cos b * Real.cos c| ≤ |Real.cos a * Real.cos b| := by
    rw [abs_mul]
    have hcc : |Real.cos c| ≤ 1 := Real.abs_cos_le_one c
    nlinarith [abs_nonneg (Real.cos a * Real.cos b)]
  have h3 : |Real.sin a * Real.sin b| + |Real.cos a * Real.cos b| ≤ 1 := by
    rw [abs_mul, abs_mul]
    nlinarith [Real.sin_sq_add_cos_sq a, Real.sin_sq_add_cos_sq b,
      sq_nonneg (|Real.sin a| * |Real.cos b| - |Real.cos a| * |Real.sin b|),
      sq_abs (Real.sin a), sq_abs (Real.cos a), sq_abs (Real.sin b), sq_abs (Real.cos b),
      abs_nonneg (Real.sin a), abs_nonneg (Real.cos a),
      abs_nonneg (Real.sin b), abs_nonneg (Real.cos b)]
  calc |Real.sin a * Real.sin b + Real.cos a * Real.cos b * Real.cos c|
      ≤ |Real.sin a * Real.sin b| + |Real.cos a * Real.cos b * Real.cos c| := h1
    _ ≤ |Real.sin a * Real.sin b| + |Real.cos a * Real.cos b| := by linarith
    _ ≤ 1 := h3

/-- Distance between two stations on the same longitude, as the code computes
it: `6371 * ((2 * pi / 180) * |la - lb|)`, provided the (doubled) angle stays
within `[0, pi]`. -/
lemma chargers_to_km_same_longitude (ia ib : Nat) (la lb lon : ℝ)
    (h : ((2 * Real.pi) / 180) * |la - lb| ≤ Real.pi) :
    chargers_to_km ⟨ia, la, lon⟩ ⟨ib, lb, lon⟩ =
      6371 * (((2 * Real.pi) / 180) * |la - lb|) := by
  have hθ : (0:ℝ) ≤ (2 * Real.pi) / 180 := by positivity
  unfold chargers_to_km longitude_and_latitude_to_km cosine_sum
  simp only
  have hdiff : |((2 * Real.pi) / 180) * lon - ((2 * Real.pi) / 180) * lon| = 0 := by
    simp
  rw [hdiff, Real.cos_zero, mul_one]
  have hsum : Real.sin (((2 * Real.pi) / 180) * la) * Real.sin (((2 * Real.pi) / 180) * lb) +
      Real.cos (((2 * Real.pi) / 180) * la) * Real.cos (((2 * Real.pi) / 180) * lb) =
      Real.cos (((2 * Real.pi) / 180) * la - ((2 * Real.pi) / 180) * lb) := by
    rw [Real.cos_sub]; ring
  rw [hsum]
  have habs : Real.cos (((2 * Real.pi) / 180) * la - ((2 * Real.pi) / 180) * lb) =
      Real.cos (((2 * Real.pi) / 180) * |la - lb|) := by
    have : ((2 * Real.pi) / 180) * la - ((2 * Real.pi) / 180) * lb =
        ((2 * Real.pi) / 180) * (la - lb) := by ring
    rw [this, ← Real.cos_abs, abs_mul, abs_of_nonneg hθ]
  rw [habs, Real.arccos_cos (by positivity) h]

open Classical in
/-- `find_lowest_average_distance` from `src/Cluster.py` (lines 128-144).
`min_avg_distance = float('inf')` is modelled by `none` (every finite average
compares below it); `min_index` starts at 0.  For each `i`, the code sums the
distances to every other station, then divides by `len(chargers) - 1`; when
that integer divisor is 0 (a singleton list) Python raises ZeroDivisionError.
The final `return chargers[min_index]` raises IndexError on an empty list. -/
noncomputable def find_lowest_average_distance (chargers : List ChargeStation) :
    Except PyErr ChargeStation := do
  let st ← (List.range chargers.length).foldlM
    (fun (st : Option ℝ × Nat) i => do
      let total := (List.range chargers.length).foldl
        (fun acc j => if i ≠ j then
            acc + chargers_to_km (chargers.getD i default) (chargers.getD j default)
          else acc) 0
      if (chargers.length : ℤ) - 1 = 0 then Except.error PyErr.zeroDivisionError
      else
        let avg := total / ((chargers.length : ℝ) - 1)
        match st.1 with
        | none => pure (some avg, i)
        | some m => if avg < m then pure (some avg, i) else pure st)
    ((none : Option ℝ), 0)
  match chargers[st.2]? with
  | some c => pure c
  | none => Except.error PyErr.indexError

/-- The (i, j) index pairs visited by the nested loops of
`find_furthest_charge_stations`: `for i in range(n): for j in range(i+1, n)`,
in exactly that order. -/
def pairIndices (n : Nat) : List (Nat × Nat) :=
  (List.range n).flatMap (fun i => (List.range' (i + 1) (n - (i + 1))).map (fun j => (i, j)))

/-- The distance `chargers_to_km(chargers[i], chargers[j])` computed in the
loop body of `find_furthest_charge_stations` (`src/Cluster.py` line 120). -/
noncomputable def pdist (chargers : List ChargeStation) (ij : Nat × Nat) : ℝ :=
  chargers_to_km (chargers.getD ij.1 default) (chargers.getD ij.2 default)

/-- The pair `(chargers[i], chargers[j])` stored by the loop body of
`find_furthest_charge_stations` (`src/Cluster.py` lines 123-124). -/
def ppoints (chargers : List ChargeStation) (ij : Nat × Nat) :
    ChargeStation × ChargeStation :=
  (chargers.getD ij.1 default, chargers.getD ij.2 default)

/-- One iteration of the loop body of `find_furthest_charge_stations`
(`src/Cluster.py` lines 118-124): compute the pairwise distance and update the
running maximum and its endpoints when the strict comparison
`distance > max_distance` succeeds. -/
noncomputable def furthest_step (chargers : List ChargeStation)
    (st : ℝ × ChargeStation × ChargeStation) (ij : Nat × Nat) :
    ℝ × ChargeStation × ChargeStation :=
  if st.1 < pdist chargers ij then (pdist chargers ij, ppoints chargers ij)
  else st

/-- `find_furthest_charge_stations` from `src/Cluster.py` (lines 105-126):
`raise IndexError` when fewer than 2 stations are given, otherwise scan all
(i, j) pairs with `i < j`, starting from `max_distance = 0`,
`point1 = chargers[0]`, `point2 = chargers[1]`. -/
noncomputable def find_furthest_charge_stations (chargers : List ChargeStation) :
    Except PyErr (ChargeStation × ChargeStation) :=
  match chargers with
  | point1 :: point2 :: _ =>
    Except.ok (((pairIndices chargers.length).foldl (furthest_step chargers)
      (0, point1, point2)).2)
  | _ => Except.error PyErr.indexError

/-- C4: the claim says `find_lowest_average_distance` returns the single point
of a singleton input without dividing by zero, via a special case.  The code
has no special case: for a one-element list it evaluates
`total_distance / (len(chargers) - 1) = 0 / 0` and raises ZeroDivisionError.
This theorem evaluates the embedded code at the failing input. -/
theorem claim_C4_singleton_zero_division :
    find_lowest_average_distance [⟨0, 0, 0⟩] = Except.error PyErr.zeroDivisionError := by
  simp [find_lowest_average_distance, List.range_succ, Bind.bind, Except.bind]

/-- C5 (amended): with fewer than 2 stations the function raises the generic
builtin IndexError, not a distinct `InsufficientPoints` kind; with at least 2
stations it returns a pair; IndexError is the only error it can raise. -/
theorem claim_C5_amended (chargers : List ChargeStation) :
    (chargers.length < 2 →
      find_furthest_charge_stations chargers = Except.error PyErr.indexError) ∧
    (2 ≤ chargers.length → ∃ p, find_furthest_charge_stations chargers = Except.ok p) ∧
    (∀ e, find_furthest_charge_stations chargers = Except.error e → e = PyErr.indexError) := by
  match chargers with
  | [] => refine ⟨fun _ => rfl, fun h => by simp at h, fun e he => ?_⟩
          simp only [find_furthest_charge_stations] at he
          exact (Except.error.inj he).symm
  | [a] => refine ⟨fun _ => rfl, fun h => by simp at h, fun e he => ?_⟩
           simp only [find_furthest_charge_stations] at he
           exact (Except.error.inj he).symm
  | a :: b :: t =>
    refine ⟨fun h => by simp at h; omega, fun _ => ⟨_, rfl⟩, fun e he => ?_⟩
    simp only [find_furthest_charge_stations] at he
    exact absurd he (by simp)

/-- C5 counterexample: at the concrete input `[]` the code raises IndexError,
which is not the distinct `InsufficientPoints` kind the claim names. -/
theorem claim_C5_counterexample :
    find_furthest_charge_stations [] = Except.error PyErr.indexError ∧
      PyErr.indexError ≠ PyErr.insufficientPoints := ⟨rfl, by decide⟩

/-- C5 witness: the amended theorem applied at concrete inputs. -/
theorem claim_C5_witness :
    find_furthest_charge_stations [] = Except.error PyErr.indexError ∧
      ∃ p, find_furthest_charge_stations [⟨0, 0, 0⟩, ⟨1, 1, 0⟩] = Except.ok p :=
  ⟨(claim_C5_amended []).1 (by simp), (claim_C5_amended _).2.1 (by simp)⟩

lemma pdist_nonneg (chargers : List ChargeStation) (ij : Nat × Nat) :
    0 ≤ pdist chargers ij :=
  chargers_to_km_nonneg _ _

/-- Loop invariant for the scan in `find_furthest_charge_stations`: after the
pairs in `ps` have been processed, the state records exactly the distance and
the endpoints of the first pair of `ps` (in visiting order) achieving the
maximum distance over `ps`. -/
def FurthestInv (chargers : List ChargeStation) (ps : List (Nat × Nat))
    (st : ℝ × ChargeStation × ChargeStation) : Prop :=
  ∃ k, k < ps.length ∧
    st.1 = pdist chargers (ps.getD k (0, 0)) ∧
    st.2 = ppoints chargers (ps.getD k (0, 0)) ∧
    (∀ m, m < ps.length → pdist chargers (ps.getD m (0, 0)) ≤ st.1) ∧
    (∀ m, m < ps.length → m < k → pdist chargers (ps.getD m (0, 0)) < st.1)

lemma furthestInv_step (chargers : List ChargeStation) (ps : List (Nat × Nat))
    (st : ℝ × ChargeStation × ChargeStation) (q : Nat × Nat)
    (h : FurthestInv chargers ps st) :
    FurthestInv chargers (ps ++ [q]) (furthest_step chargers st q) := by
  obtain ⟨k, hk, h1, h2, hmax, hfirst⟩ := h
  have hgetlast : (ps ++ [q]).getD ps.length (0, 0) = q := by
    rw [List.getD_append_right _ _ _ _ (le_refl _)]
    simp
  have hgetlt : ∀ m, m < ps.length → (ps ++ [q]).getD m (0, 0) = ps.getD m (0, 0) := by
    intro m hm
    exact List.getD_append _ _ _ _ hm
  unfold furthest_step
  rcases lt_or_ge st.1 (pdist chargers q) with hlt | hge
  · rw [if_pos hlt]
    refine ⟨ps.length, by simp, by rw [hgetlast], by rw [hgetlast], ?_, ?_⟩
    · intro m hm
      rcases Nat.lt_or_ge m ps.length with hmlt | hmge
      · rw [hgetlt m hmlt]
        exact le_trans (hmax m hmlt) (le_of_lt hlt)
      · have hmeq : m = ps.length := by simp at hm; omega
        subst hmeq
        rw [hgetlast]
    · intro m hm hmk
      rw [hgetlt m hmk]
      exact lt_of_le_of_lt (hmax m hmk) hlt
  · rw [if_neg (not_lt.mpr hge)]
    refine ⟨k, by simp; omega, by rw [hgetlt k hk]; exact h1,
      by rw [hgetlt k hk]; exact h2, ?_, ?_⟩
    · intro m hm
      rcases Nat.lt_or_ge m ps.length with hmlt | hmge
      · rw [hgetlt m hmlt]
        exact hmax m hmlt
      · have hmeq : m = ps.length := by simp at hm; omega
        subst hmeq
        rw [hgetlast]
        exact hge
    · intro m hm hmk
      have hmlt : m < ps.length := lt_trans hmk hk
      rw [hgetlt m hmlt]
      exact hfirst m hmlt hmk

lemma furthestInv_foldl (chargers : List ChargeStation) :
    ∀ (ps acc : List (Nat × Nat)) (st : ℝ × ChargeStation × ChargeStation),
      FurthestInv chargers acc st →
      FurthestInv chargers (acc ++ ps) (ps.foldl (furthest_step chargers) st)
  | [], acc, st, h => by simpa using h
  | q :: ps, acc, st, h => by
    have h1 := furthestInv_step chargers acc st q h
    have h2 := furthestInv_foldl chargers ps (acc ++ [q]) _ h1
    simpa using h2

lemma furthestInv_init (c0 c1 : ChargeStation) (rest : List ChargeStation) :
    FurthestInv (c0 :: c1 :: rest) [(0, 1)]
      (furthest_step (c0 :: c1 :: rest) (0, c0, c1) (0, 1)) := by
  have hpt : ppoints (c0 :: c1 :: rest) (0, 1) = (c0, c1) := by
    simp [ppoints]
  unfold furthest_step
  rcases lt_or_ge ((0 : ℝ), c0, c1).1 (pdist (c0 :: c1 :: rest) (0, 1)) with hlt | hge
  · rw [if_pos hlt]
    refine ⟨0, by simp, by simp, by simp [hpt], ?_, by omega⟩
    intro m hm
    have hm0 : m = 0 := by simp at hm; omega
    subst hm0
    simp
  · rw [if_neg (not_lt.mpr hge)]
    have h0 : pdist (c0 :: c1 :: rest) (0, 1) = 0 :=
      le_antisymm hge (pdist_nonneg _ _)
    refine ⟨0, by simp, by simp [h0], by simp [hpt], ?_, by omega⟩
    intro m hm
    have hm0 : m = 0 := by simp at hm; omega
    subst hm0
    simp [h0]

lemma pairIndices_head (n : Nat) :
    ∃ t, pairIndices (n + 2) = (0, 1) :: t := by
  refine ⟨(List.range' 2 n).map (fun j => (0, j)) ++
      (List.range' 1 (n + 1)).flatMap
        (fun i => (List.range' (i + 1) (n + 2 - (i + 1))).map (fun j => (i, j))), ?_⟩
  unfold pairIndices
  rw [List.range_eq_range']
  have h1 : List.range' 0 (n + 2) = 0 :: List.range' 1 (n + 1) := rfl
  have h2 : List.range' (0 + 1) (n + 2 - (0 + 1)) = 1 :: List.range' 2 n := rfl
  rw [h1, List.flatMap_cons, h2, List.map_cons]
  rfl

lemma mem_pairIndices {i j n : Nat} (hij : i < j) (hjn : j < n) :
    (i, j) ∈ pairIndices n := by
  unfold pairIndices
  rw [List.mem_flatMap]
  refine ⟨i, List.mem_range.mpr (lt_trans hij hjn), List.mem_map.mpr ⟨j, ?_, rfl⟩⟩
  rw [List.mem_range'_1]
  omega

/-- The three stations of the worked example of the spec (section 8): latitudes
0, 1 and 10 degrees, all on longitude 0. -/
def exStation0 : ChargeStation := ⟨0, 0, 0⟩

/-- Second example station, latitude 1 degree. -/
def exStation1 : ChargeStation := ⟨1, 1, 0⟩

/-- Third example station, latitude 10 degrees. -/
def exStation2 : ChargeStation := ⟨2, 10, 0⟩

lemma pdist_eq_ppoints (chargers : List ChargeStation) (ij : Nat × Nat) :
    pdist chargers ij =
      chargers_to_km (ppoints chargers ij).1 (ppoints chargers ij).2 := rfl

lemma chargers_to_km_ex01 :
    chargers_to_km exStation0 exStation1 = 6371 * (((2 * Real.pi) / 180) * 1) := by
  have hπ := Real.pi_pos
  have h := chargers_to_km_same_longitude 0 1 0 1 0 (by
    rw [show |(0 : ℝ) - 1| = 1 by norm_num]
    nlinarith)
  rw [show |(0 : ℝ) - 1| = 1 by norm_num] at h
  exact h

lemma chargers_to_km_ex02 :
    chargers_to_km exStation0 exStation2 = 6371 * (((2 * Real.pi) / 180) * 10) := by
  have hπ := Real.pi_pos
  have h := chargers_to_km_same_longitude 0 2 0 10 0 (by
    rw [show |(0 : ℝ) - 10| = 10 by norm_num]
    nlinarith)
  rw [show |(0 : ℝ) - 10| = 10 by norm_num] at h
  exact h

lemma chargers_to_km_ex12 :
    chargers_to_km exStation1 exStation2 = 6371 * (((2 * Real.pi) / 180) * 9) := by
  have hπ := Real.pi_pos
  have h := chargers_to_km_same_longitude 1 2 1 10 0 (by
    rw [show |(1 : ℝ) - 10| = 9 by norm_num]
    nlinarith)
  rw [show |(1 : ℝ) - 10| = 9 by norm_num] at h
  exact h

lemma furthest_example :
    find_furthest_charge_stations [exStation0, exStation1, exStation2] =
      Except.ok (exStation0, exStation2) := by
  have hπ := Real.pi_pos
  have hd01 : pdist [exStation0, exStation1, exStation2] (0, 1) =
      6371 * (((2 * Real.pi) / 180) * 1) := by
    simp only [pdist, List.getD_cons_zero, List.getD_cons_succ]
    exact chargers_to_km_ex01
  have hd02 : pdist [exStation0, exStation1, exStation2] (0, 2) =
      6371 * (((2 * Real.pi) / 180) * 10) := by
    simp only [pdist, List.getD_cons_zero, List.getD_cons_succ]
    exact chargers_to_km_ex02
  have hd12 : pdist [exStation0, exStation1, exStation2] (1, 2) =
      6371 * (((2 * Real.pi) / 180) * 9) := by
    simp only [pdist, List.getD_cons_zero, List.getD_cons_succ]
    exact chargers_to_km_ex12
  have hpp01 : ppoints [exStation0, exStation1, exStation2] (0, 1) =
      (exStation0, exStation1) := by simp [ppoints]
  have hpp02 : ppoints [exStation0, exStation1, exStation2] (0, 2) =
      (exStation0, exStation2) := by simp [ppoints]
  have s1 : furthest_step [exStation0, exStation1, exStation2]
      (0, exStation0, exStation1) (0, 1) =
      (6371 * (((2 * Real.pi) / 180) * 1), exStation0, exStation1) := by
    rw [furthest_step, if_pos (by
      show (0 : ℝ) < pdist [exStation0, exStation1, exStation2] (0, 1)
      rw [hd01]; positivity)]
    rw [hd01, hpp01]
  have s2 : furthest_step [exStation0, exStation1, exStation2]
      (6371 * (((2 * Real.pi) / 180) * 1), exStation0, exStation1) (0, 2) =
      (6371 * (((2 * Real.pi) / 180) * 10), exStation0, exStation2) := by
    rw [furthest_step, if_pos (by
      show 6371 * (((2 * Real.pi) / 180) * 1) <
        pdist [exStation0, exStation1, exStation2] (0, 2)
      rw [hd02]; nlinarith)]
    rw [hd02, hpp02]
  have s3 : furthest_step [exStation0, exStation1, exStation2]
      (6371 * (((2 * Real.pi) / 180) * 10), exStation0, exStation2) (1, 2) =
      (6371 * (((2 * Real.pi) / 180) * 10), exStation0, exStation2) := by
    rw [furthest_step, if_neg (by
      show ¬(6371 * (((2 * Real.pi) / 180) * 10) <
        pdist [exStation0, exStation1, exStation2] (1, 2))
      rw [hd12]; push_neg; nlinarith)]
  have hp : pairIndices ([exStation0, exStation1, exStation2] :
      List ChargeStation).length = [(0, 1), (0, 2), (1, 2)] := rfl
  simp only [find_furthest_charge_stations]
  rw [hp]
  simp only [List.foldl_cons, List.foldl_nil]
  rw [s1, s2, s3]

/-- C6: for every list of at least 2 stations, `find_furthest_charge_stations`
returns the pair of stations at the index pair of the enumeration
`for i in range(n): for j in range(i+1, n)` that achieves the maximum pairwise
distance, and is the first-encountered such pair (every earlier pair in the
enumeration is strictly closer); in particular, for stations at latitudes
0, 1, 10 degrees (longitude 0) it returns the first and third stations. -/
theorem claim_C6 :
    (∀ (c0 c1 : ChargeStation) (rest : List ChargeStation),
      ∃ k, k < (pairIndices (c0 :: c1 :: rest).length).length ∧
        find_furthest_charge_stations (c0 :: c1 :: rest) =
          Except.ok (ppoints (c0 :: c1 :: rest)
            ((pairIndices (c0 :: c1 :: rest).length).getD k (0, 0))) ∧
        (∀ i j, i < j → j < (c0 :: c1 :: rest).length →
          pdist (c0 :: c1 :: rest) (i, j) ≤
            pdist (c0 :: c1 :: rest)
              ((pairIndices (c0 :: c1 :: rest).length).getD k (0, 0))) ∧
        (∀ m, m < (pairIndices (c0 :: c1 :: rest).length).length → m < k →
          pdist (c0 :: c1 :: rest)
              ((pairIndices (c0 :: c1 :: rest).length).getD m (0, 0)) <
            pdist (c0 :: c1 :: rest)
              ((pairIndices (c0 :: c1 :: rest).length).getD k (0, 0)))) ∧
    find_furthest_charge_stations [exStation0, exStation1, exStation2] =
      Except.ok (exStation0, exStation2) := by
  constructor
  · intro c0 c1 rest
    have hlen : (c0 :: c1 :: rest).length = rest.length + 2 := by simp
    obtain ⟨t, ht⟩ := pairIndices_head rest.length
    have hps : pairIndices (c0 :: c1 :: rest).length = (0, 1) :: t := by
      rw [hlen, ht]
    have hinit := furthestInv_init c0 c1 rest
    have hfold := furthestInv_foldl (c0 :: c1 :: rest) t [(0, 1)] _ hinit
    have hinv : FurthestInv (c0 :: c1 :: rest)
        (pairIndices (c0 :: c1 :: rest).length)
        ((pairIndices (c0 :: c1 :: rest).length).foldl
          (furthest_step (c0 :: c1 :: rest)) (0, c0, c1)) := by
      rw [hps, List.foldl_cons]
      simpa using hfold
    obtain ⟨k, hk, h1, h2, hmax, hfirst⟩ := hinv
    refine ⟨k, hk, ?_, ?_, ?_⟩
    · simp only [find_furthest_charge_stations]
      rw [h2]
    · intro i j hij hjn
      have hmem : (i, j) ∈ pairIndices (c0 :: c1 :: rest).length :=
        mem_pairIndices hij hjn
      obtain ⟨m, hm, hgm⟩ := List.getElem_of_mem hmem
      have hgd : (pairIndices (c0 :: c1 :: rest).length).getD m (0, 0) = (i, j) := by
        rw [List.getD_eq_getElem _ _ hm, hgm]
      have := hmax m hm
      rw [h1, hgd] at this
      exact this
    · intro m hm hmk
      have := hfirst m hm hmk
      rw [h1] at this
      exact this
  · exact furthest_example

/-- C6 witness: the general theorem applied to the concrete example stations,
discharging the list-shape and index hypotheses there. -/
theorem claim_C6_witness :
    chargers_to_km exStation0 exStation1 ≤ chargers_to_km exStation0 exStation2 := by
  obtain ⟨k, hk, heq, hmax, hfirst⟩ := claim_C6.1 exStation0 exStation1 [exStation2]
  have h2 := claim_C6.2
  rw [heq] at h2
  have hpk : ppoints [exStation0, exStation1, exStation2]
      ((pairIndices ([exStation0, exStation1, exStation2] :
        List ChargeStation).length).getD k (0, 0)) = (exStation0, exStation2) :=
    Except.ok.inj h2
  have h01 := hmax 0 1 (by omega) (by simp)
  have e1 : pdist [exStation0, exStation1, exStation2] (0, 1) =
      chargers_to_km exStation0 exStation1 := by
    simp only [pdist, List.getD_cons_zero, List.getD_cons_succ]
  have e2 : pdist [exStation0, exStation1, exStation2]
      ((pairIndices ([exStation0, exStation1, exStation2] :
        List ChargeStation).length).getD k (0, 0)) =
      chargers_to_km exStation0 exStation2 := by
    rw [pdist_eq_ppoints, hpk]
  rw [e1, e2] at h01
  exact h01

/-- The tree class `TreeCluster` of `src/Cluster.py` (lines 8-43): attributes
`_centroid` (`None` for the empty tree), `_complete` and `_subcluster`.
The annotated attribute `_distance` is declared but never assigned anywhere
in the source, so it is omitted. -/
inductive TreeCluster where
  | mk (centroid : Option ChargeStation) (complete : Bool)
      (subcluster : List TreeCluster)

/-- Accessor for the `_centroid` attribute. -/
def TreeCluster.centroid : TreeCluster → Option ChargeStation
  | .mk c _ _ => c

/-- Accessor for the `_complete` attribute. -/
def TreeCluster.complete : TreeCluster → Bool
  | .mk _ b _ => b

/-- Accessor for the `_subcluster` attribute. -/
def TreeCluster.subcluster : TreeCluster → List TreeCluster
  | .mk _ _ s => s

/-- The statement `i._complete = True` executed on each child when the
termination condition of `create_subclusters` holds. -/
def TreeCluster.mark_complete : TreeCluster → TreeCluster
  | .mk c _ s => .mk c true s

/-- The dynamically typed `stations` argument of `TreeCluster.__init__`: the
source passes either `None` (the default), an actual list of charge stations
(as the public callers do), or - in the recursive call
`TreeCluster(distance, i)` inside the constructor loop - a single charge
station. -/
inductive PyArg where
  | noneArg
  | station (s : ChargeStation)
  | stationList (l : List ChargeStation)

/-- The statement `xs += t` where `xs` is a Python list and `t` is a
`TreeCluster` value: `list.__iadd__` iterates its right operand, and
`TreeCluster` defines no `__iter__`, so the statement raises TypeError.  This
models `self._subcluster += TreeCluster(distance, i)` in `__init__` and
`new_cluster1 += i` / `new_cluster2 += i` in `create_subclusters`; the element
type of the target list is irrelevant because the operation never succeeds. -/
def list_iadd_tree {α : Type} (_ : List α) (_ : TreeCluster) :
    Except PyErr (List α) :=
  Except.error PyErr.typeError

/-- Evaluating `chargers_to_km(c, ...)` where `c` is a `_centroid` attribute:
when the centroid is `None`, the attribute access `None.longitude` inside
`chargers_to_km` raises AttributeError; otherwise the station is used. -/
def centroid_value : Option ChargeStation → Except PyErr ChargeStation
  | some c => Except.ok c
  | none => Except.error PyErr.attributeError

/-- Evaluation of `[tree._centroid for tree in self._subcluster]` (and of the
centroid pairs inside the set comprehension of the termination guard): the
sequence of the children's centroids, raising AttributeError as soon as one of
them is `None` and is fed to `chargers_to_km`. -/
def centroid_list : List TreeCluster → Except PyErr (List ChargeStation)
  | [] => Except.ok []
  | t :: ts => do
    let c ← centroid_value t.centroid
    let cs ← centroid_list ts
    pure (c :: cs)

/-- The branch condition of the partition loop of `create_subclusters`
(`src/Cluster.py` line 73): a child is routed toward `new_cluster1` exactly
when its centroid is strictly nearer to `reference_stations[0]` than to
`reference_stations[1]`. -/
def assigned_to_first_bucket (c r0 r1 : ChargeStation) : Prop :=
  chargers_to_km c r0 < chargers_to_km c r1

open Classical

mutual
/-- `TreeCluster.__init__` from `src/Cluster.py` (lines 28-43), with an
explicit fuel bounding the Python call stack (`PyErr.recursionError` when
exhausted).  With `stations = None` only the attribute assignments and the
final `create_subclusters` call run.  With a single (non-iterable) station -
the shape produced by the constructor's own recursive call - the loop header
`for i in stations:` raises TypeError.  With a station list, each iteration
first builds `TreeCluster(distance, i)` and then executes
`self._subcluster += ...`; afterwards the centroid is computed by
`find_lowest_average_distance` and `create_subclusters` runs. -/
noncomputable def TreeCluster.init (fuel : Nat) (distance : ℝ) (stations : PyArg) :
    Except PyErr TreeCluster :=
  match fuel with
  | 0 => Except.error PyErr.recursionError
  | f + 1 =>
    match stations with
    | PyArg.noneArg =>
      TreeCluster.create_subclusters f (TreeCluster.mk none false []) distance
    | PyArg.station _ =>
      Except.error PyErr.typeError
    | PyArg.stationList l => do
      let sub ← l.foldlM (fun acc s => do
        let child ← TreeCluster.init f distance (PyArg.station s)
        list_iadd_tree acc child) ([] : List TreeCluster)
      let c ← find_lowest_average_distance l
      TreeCluster.create_subclusters f (TreeCluster.mk (some c) false sub) distance
termination_by 2 * fuel

/-- `TreeCluster.create_subclusters` from `src/Cluster.py` (lines 61-78).
The guard `len(self._subcluster) < 2 or all({...})` short-circuits; evaluating
the set comprehension computes `chargers_to_km` on every ordered pair of the
children's centroids (AttributeError if any centroid is `None`).  On the split
path the reference pair comes from `find_furthest_charge_stations`, each child
is routed by `assigned_to_first_bucket`, appended with `+=` (TypeError, see
`list_iadd_tree`), and finally the two buckets would be rebuilt through the
constructor. -/
noncomputable def TreeCluster.create_subclusters (fuel : Nat) (t : TreeCluster)
    (distance : ℝ) : Except PyErr TreeCluster :=
  if t.subcluster.length < 2 then
    Except.ok (TreeCluster.mk t.centroid t.complete
      (t.subcluster.map TreeCluster.mark_complete))
  else do
    let cents ← centroid_list t.subcluster
    if ∀ c1 ∈ cents, ∀ c2 ∈ cents, chargers_to_km c1 c2 < distance then
      Except.ok (TreeCluster.mk t.centroid t.complete
        (t.subcluster.map TreeCluster.mark_complete))
    else do
      let refs ← find_furthest_charge_stations cents
      let buckets ← t.subcluster.foldlM
        (fun (b : List ChargeStation × List ChargeStation) i => do
          let c ← centroid_value i.centroid
          if assigned_to_first_bucket c refs.1 refs.2 then do
            let b1 ← list_iadd_tree b.1 i
            pure (b1, b.2)
          else do
            let b2 ← list_iadd_tree b.2 i
            pure (b.1, b2))
        (([], []) : List ChargeStation × List ChargeStation)
      let t1 ← TreeCluster.init fuel distance (PyArg.stationList buckets.1)
      let t2 ← TreeCluster.init fuel distance (PyArg.stationList buckets.2)
      Except.ok (TreeCluster.mk t.centroid t.complete [t1, t2])
termination_by 2 * fuel + 1
end

mutual
/-- `get_cluster_free_list` from `src/Cluster.py` (lines 51-59).  When
`self._complete` holds the method returns the one-element list
`[self._centroid]` (whatever `_centroid` is, possibly `None`).  Otherwise it
extends an accumulator with the recursive results and then falls off the end
of the method with no `return` statement, so Python returns `None` - modelled
as `Except.ok none`. -/
def TreeCluster.get_cluster_free_list (t : TreeCluster) :
    Except PyErr (Option (List (Option ChargeStation))) :=
  match t with
  | .mk c complete sub =>
    if complete then Except.ok (some [c])
    else
      match gcfl_extend sub [] with
      | Except.ok _ => Except.ok none
      | Except.error e => Except.error e
termination_by sizeOf t

/-- The loop `for i in self._subcluster:
return_val.extend(i.get_cluster_free_list())` of `get_cluster_free_list`:
`list.extend(None)` raises TypeError when the recursive call returned
`None`. -/
def gcfl_extend (ts : List TreeCluster) (acc : List (Option ChargeStation)) :
    Except PyErr (List (Option ChargeStation)) :=
  match ts with
  | [] => Except.ok acc
  | t :: rest =>
    match t.get_cluster_free_list with
    | Except.ok (some l) => gcfl_extend rest (acc ++ l)
    | Except.ok none => Except.error PyErr.typeError
    | Except.error e => Except.error e
termination_by sizeOf ts
end

lemma find_lowest_nil :
    find_lowest_average_distance [] = Except.error PyErr.indexError := by
  simp [find_lowest_average_distance]

lemma create_subclusters_short (f : Nat) (t : TreeCluster) (d : ℝ)
    (h : t.subcluster.length < 2) :
    TreeCluster.create_subclusters f t d =
      Except.ok (TreeCluster.mk t.centroid t.complete
        (t.subcluster.map TreeCluster.mark_complete)) := by
  rw [TreeCluster.create_subclusters, if_pos h]

lemma init_zero (d : ℝ) (a : PyArg) :
    TreeCluster.init 0 d a = Except.error PyErr.recursionError := by
  rw [TreeCluster.init]

lemma init_station (f : Nat) (d : ℝ) (s : ChargeStation) :
    TreeCluster.init (f + 1) d (PyArg.station s) = Except.error PyErr.typeError := by
  rw [TreeCluster.init]

lemma init_noneArg (f : Nat) (d : ℝ) :
    TreeCluster.init (f + 1) d PyArg.noneArg =
      Except.ok (TreeCluster.mk none false []) := by
  rw [TreeCluster.init]
  rw [create_subclusters_short f _ d (by simp [TreeCluster.subcluster])]
  rfl

lemma init_stationList_nil (f : Nat) (d : ℝ) :
    TreeCluster.init (f + 1) d (PyArg.stationList []) =
      Except.error PyErr.indexError := by
  rw [TreeCluster.init]
  simp [find_lowest_nil, Bind.bind, Except.bind, pure, Except.pure]

lemma init_stationList_cons (f : Nat) (d : ℝ) (s : ChargeStation)
    (rest : List ChargeStation) :
    TreeCluster.init (f + 2) d (PyArg.stationList (s :: rest)) =
      Except.error PyErr.typeError := by
  rw [TreeCluster.init]
  simp [init_station, list_iadd_tree, Bind.bind, Except.bind]

lemma init_one_cons (d : ℝ) (s : ChargeStation) (rest : List ChargeStation) :
    TreeCluster.init 1 d (PyArg.stationList (s :: rest)) =
      Except.error PyErr.recursionError := by
  rw [TreeCluster.init]
  simp [init_zero, list_iadd_tree, Bind.bind, Except.bind]

lemma centroid_value_ok {o : Option ChargeStation} {s : ChargeStation}
    (h : centroid_value o = Except.ok s) : o = some s := by
  cases o with
  | none => simp [centroid_value] at h
  | some c =>
    simp only [centroid_value, Except.ok.injEq] at h
    rw [h]

lemma centroid_list_ok_mem :
    ∀ (ts : List TreeCluster) (cents : List ChargeStation),
      centroid_list ts = Except.ok cents →
      ∀ c ∈ ts, ∃ s, c.centroid = some s := by
  intro ts
  induction ts with
  | nil => intro cents _ c hc; simp at hc
  | cons t rest ih =>
    intro cents h c hc
    rw [centroid_list] at h
    cases hcv : centroid_value t.centroid with
    | error e => rw [hcv] at h; simp [Bind.bind, Except.bind] at h
    | ok v =>
      rw [hcv] at h
      cases hcl : centroid_list rest with
      | error e => rw [hcl] at h; simp [Bind.bind, Except.bind] at h
      | ok vs =>
        rcases List.mem_cons.mp hc with rfl | hc
        · exact ⟨v, centroid_value_ok hcv⟩
        · exact ih vs hcl c hc

lemma create_subclusters_split_error (fuel : Nat) (t : TreeCluster) (d : ℝ)
    (cents : List ChargeStation)
    (h2 : 2 ≤ t.subcluster.length)
    (hcents : centroid_list t.subcluster = Except.ok cents)
    (hc2 : 2 ≤ cents.length)
    (hnot : ¬ ∀ c1 ∈ cents, ∀ c2 ∈ cents, chargers_to_km c1 c2 < d) :
    TreeCluster.create_subclusters fuel t d = Except.error PyErr.typeError := by
  obtain ⟨x, xs, hsub⟩ : ∃ x xs, t.subcluster = x :: xs := by
    cases hs : t.subcluster with
    | nil => rw [hs] at h2; simp at h2
    | cons a b => exact ⟨a, b, rfl⟩
  obtain ⟨s, hx⟩ : ∃ s, x.centroid = some s := by
    apply centroid_list_ok_mem t.subcluster cents hcents
    rw [hsub]
    exact List.mem_cons_self _ _
  obtain ⟨r, hr⟩ : ∃ r, find_furthest_charge_stations cents = Except.ok r := by
    cases cents with
    | nil => simp at hc2
    | cons c0 rest2 =>
      cases rest2 with
      | nil => simp at hc2
      | cons c1 cs => exact ⟨_, rfl⟩
  rw [TreeCluster.create_subclusters, if_neg (by omega)]
  rw [hcents]
  simp only [Bind.bind, Except.bind]
  rw [if_neg hnot, hr, hsub]
  simp [List.foldlM_cons, hx, centroid_value, list_iadd_tree, Bind.bind, Except.bind]

/-- C1: for every non-empty station list, `TreeCluster.__init__` raises a
TypeError at the child-building step - the first loop iteration evaluates
`self._subcluster += TreeCluster(distance, i)`, whose inner constructor call
iterates the non-iterable single station (and whose `+=` would equally reject
the non-iterable `TreeCluster`) - so construction never returns a tree for any
non-empty input at any recursion depth. -/
theorem claim_C1 :
    ∀ (k : Nat) (d : ℝ) (s : ChargeStation) (rest : List ChargeStation),
      TreeCluster.init (k + 2) d (PyArg.stationList (s :: rest)) =
        Except.error PyErr.typeError ∧
      ∀ fuel : Nat, ∃ e : PyErr,
        TreeCluster.init fuel d (PyArg.stationList (s :: rest)) =
          Except.error e := by
  intro k d s rest
  refine ⟨init_stationList_cons k d s rest, ?_⟩
  intro fuel
  match fuel with
  | 0 => exact ⟨_, init_zero d _⟩
  | 1 => exact ⟨_, init_one_cons d s rest⟩
  | f + 2 => exact ⟨_, init_stationList_cons f d s rest⟩

/-- C7: the claim says the non-final branch of `get_cluster_free_list`
returns the concatenation of the children's sequences and never a
null/missing value.  In the source the else-branch has no `return` statement:
it can only produce the Python value `None` (modelled `Except.ok none`) or
raise, never a list; in particular the only constructible tree, the empty one,
yields `None`. -/
theorem claim_C7 :
    (∀ (c : Option ChargeStation) (sub : List TreeCluster),
      TreeCluster.get_cluster_free_list (TreeCluster.mk c false sub) =
          Except.ok none ∨
        ∃ e, TreeCluster.get_cluster_free_list (TreeCluster.mk c false sub) =
          Except.error e) ∧
    TreeCluster.get_cluster_free_list (TreeCluster.mk none false []) =
      Except.ok none := by
  constructor
  · intro c sub
    rw [TreeCluster.get_cluster_free_list]
    simp only [Bool.false_eq_true, if_false]
    cases h : gcfl_extend sub [] with
    | ok v => left; rfl
    | error e => right; exact ⟨e, rfl⟩
  · rw [TreeCluster.get_cluster_free_list]
    simp [gcfl_extend]

/-- C9 (amended): building from an empty station list raises IndexError
(`find_lowest_average_distance` indexes into the empty list), and building
with `stations = None` produces the node with empty centroid and no children
but with `is_final` (`_complete`) equal to `false`, not `true`: the root flag
is initialised `False` and never set. -/
theorem claim_C9_amended (d : ℝ) (k : Nat) :
    TreeCluster.init (k + 1) d (PyArg.stationList []) =
      Except.error PyErr.indexError ∧
    TreeCluster.init (k + 1) d PyArg.noneArg =
      Except.ok (TreeCluster.mk none false []) :=
  ⟨init_stationList_nil k d, init_noneArg k d⟩

/-- C9 counterexample: at the concrete empty inputs the claim fails - the
empty list produces an IndexError rather than a node, and the `None` input
produces a node whose `_complete` flag is `false`, not `true`. -/
theorem claim_C9_counterexample :
    TreeCluster.init 1 0 (PyArg.stationList []) = Except.error PyErr.indexError ∧
    TreeCluster.init 1 0 PyArg.noneArg = Except.ok (TreeCluster.mk none false []) ∧
    (TreeCluster.mk none false []).complete = false :=
  ⟨init_stationList_nil 0 0, init_noneArg 0 0, rfl⟩

/-- C8 (amended): the branch condition of the split loop routes a child
toward the first bucket exactly when it is strictly nearer the first
reference centroid; a child strictly nearer the second reference, or
equidistant from both, fails the condition and is routed toward the second
bucket - ties go to the second reference point, not the first. -/
theorem claim_C8_amended (c r0 r1 : ChargeStation) :
    (chargers_to_km c r0 < chargers_to_km c r1 →
      assigned_to_first_bucket c r0 r1) ∧
    (chargers_to_km c r1 < chargers_to_km c r0 →
      ¬ assigned_to_first_bucket c r0 r1) ∧
    (chargers_to_km c r0 = chargers_to_km c r1 →
      ¬ assigned_to_first_bucket c r0 r1) := by
  unfold assigned_to_first_bucket
  refine ⟨id, fun h h2 => absurd h2 (not_lt.mpr (le_of_lt h)), fun h h2 => ?_⟩
  rw [h] at h2
  exact lt_irrefl _ h2

lemma tie_station_eq :
    chargers_to_km ⟨0, 0, 0⟩ ⟨1, 1, 0⟩ = chargers_to_km ⟨0, 0, 0⟩ ⟨2, -1, 0⟩ := by
  have hπ := Real.pi_pos
  have h1 := chargers_to_km_same_longitude 0 1 0 1 0 (by
    rw [show |(0 : ℝ) - 1| = 1 by norm_num]
    nlinarith)
  have h2 := chargers_to_km_same_longitude 0 2 0 (-1) 0 (by
    rw [show |(0 : ℝ) - (-1)| = 1 by norm_num]
    nlinarith)
  rw [h1, h2, show |(0 : ℝ) - 1| = 1 by norm_num,
    show |(0 : ℝ) - (-1)| = 1 by norm_num]

/-- C8 counterexample: the station at latitude 0 is equidistant from the
reference stations at latitudes 1 and -1, yet it fails the first-bucket
condition, so it is routed to the bucket of the second reference point - the
claim says such a child is assigned to the bucket of the first. -/
theorem claim_C8_counterexample :
    chargers_to_km ⟨0, 0, 0⟩ ⟨1, 1, 0⟩ = chargers_to_km ⟨0, 0, 0⟩ ⟨2, -1, 0⟩ ∧
    ¬ assigned_to_first_bucket ⟨0, 0, 0⟩ ⟨1, 1, 0⟩ ⟨2, -1, 0⟩ := by
  refine ⟨tie_station_eq, ?_⟩
  unfold assigned_to_first_bucket
  rw [tie_station_eq]
  exact lt_irrefl _

/-- C8 witness: the amended theorem applied at the concrete equidistant
configuration. -/
theorem claim_C8_witness :
    ¬ assigned_to_first_bucket ⟨0, 0, 0⟩ ⟨1, 1, 0⟩ ⟨2, -1, 0⟩ :=
  (claim_C8_amended ⟨0, 0, 0⟩ ⟨1, 1, 0⟩ ⟨2, -1, 0⟩).2.2 tie_station_eq

lemma chargers_to_km_station_zero :
    chargers_to_km ⟨0, 0, 0⟩ ⟨0, 0, 0⟩ = 0 := by
  have h := chargers_to_km_same_longitude 0 0 0 0 0 (by
    rw [show |(0 : ℝ) - 0| = 0 by norm_num]
    nlinarith [Real.pi_pos])
  rw [show |(0 : ℝ) - 0| = 0 by norm_num] at h
  simpa using h

/-- C10 (amended): construction terminates for every finite input and every
threshold, but not through successful splits - the result is already stable
at fuel 2 because every non-empty input fails with TypeError before any
recursion, and every actual split attempt (at least two children, not all
pairwise within the threshold) raises TypeError at the bucket append instead
of partitioning the children into two non-empty groups. -/
theorem claim_C10_amended :
    (∀ (d : ℝ) (arg : PyArg) (k : Nat),
      TreeCluster.init (k + 2) d arg = TreeCluster.init 2 d arg) ∧
    (∀ (fuel : Nat) (d : ℝ) (t : TreeCluster) (cents : List ChargeStation),
      2 ≤ t.subcluster.length →
      centroid_list t.subcluster = Except.ok cents →
      2 ≤ cents.length →
      ¬ (∀ c1 ∈ cents, ∀ c2 ∈ cents, chargers_to_km c1 c2 < d) →
      TreeCluster.create_subclusters fuel t d = Except.error PyErr.typeError) := by
  constructor
  · intro d arg k
    match arg with
    | PyArg.noneArg => rw [init_noneArg (k + 1) d, init_noneArg 1 d]
    | PyArg.station s => rw [init_station (k + 1) d s, init_station 1 d s]
    | PyArg.stationList [] =>
      rw [init_stationList_nil (k + 1) d, init_stationList_nil 1 d]
    | PyArg.stationList (s :: rest) =>
      rw [init_stationList_cons k d s rest, init_stationList_cons 0 d s rest]
  · intro fuel d t cents h2 hcents hc2 hnot
    exact create_subclusters_split_error fuel t d cents h2 hcents hc2 hnot

/-- C10 counterexample: with two children at the same location and threshold
0, the split path is taken, the furthest pair is that duplicated station, yet
the station fails the first-bucket condition (so both reference points would
land in the second bucket), and the split attempt itself raises TypeError
rather than partitioning the children into two non-empty groups. -/
theorem claim_C10_counterexample :
    TreeCluster.create_subclusters 1
        (TreeCluster.mk none false
          [TreeCluster.mk (some ⟨0, 0, 0⟩) false [],
            TreeCluster.mk (some ⟨0, 0, 0⟩) false []]) 0 =
      Except.error PyErr.typeError ∧
    find_furthest_charge_stations [⟨0, 0, 0⟩, ⟨0, 0, 0⟩] =
      Except.ok (⟨0, 0, 0⟩, ⟨0, 0, 0⟩) ∧
    ¬ assigned_to_first_bucket ⟨0, 0, 0⟩ ⟨0, 0, 0⟩ ⟨0, 0, 0⟩ := by
  refine ⟨?_, ?_, ?_⟩
  · apply create_subclusters_split_error 1 _ 0 [⟨0, 0, 0⟩, ⟨0, 0, 0⟩]
    · simp [TreeCluster.subcluster]
    · simp [TreeCluster.subcluster, centroid_list, centroid_value,
        TreeCluster.centroid, Bind.bind, Except.bind, pure, Except.pure]
    · simp
    · intro h
      have := h ⟨0, 0, 0⟩ (by simp) ⟨0, 0, 0⟩ (by simp)
      rw [chargers_to_km_station_zero] at this
      exact absurd this (lt_irrefl 0)
  · have hd : pdist [(⟨0, 0, 0⟩ : ChargeStation), ⟨0, 0, 0⟩] (0, 1) = 0 := by
      simp only [pdist, List.getD_cons_zero, List.getD_cons_succ]
      exact chargers_to_km_station_zero
    simp only [find_furthest_charge_stations]
    rw [show pairIndices ([(⟨0, 0, 0⟩ : ChargeStation), ⟨0, 0, 0⟩]).length =
      [(0, 1)] from rfl]
    simp only [List.foldl_cons, List.foldl_nil]
    rw [furthest_step, if_neg (by
      show ¬((0 : ℝ) < pdist [(⟨0, 0, 0⟩ : ChargeStation), ⟨0, 0, 0⟩] (0, 1))
      rw [hd]
      exact lt_irrefl 0)]
  · unfold assigned_to_first_bucket
    exact lt_irrefl _

/-- C10 witness: the amended theorem applied at concrete inputs, discharging
the split-attempt hypotheses at two coincident children with threshold 0. -/
theorem claim_C10_witness :
    TreeCluster.init 5 0 PyArg.noneArg = TreeCluster.init 2 0 PyArg.noneArg ∧
    TreeCluster.create_subclusters 1
        (TreeCluster.mk none false
          [TreeCluster.mk (some ⟨0, 0, 0⟩) false [],
            TreeCluster.mk (some ⟨0, 0, 0⟩) false []]) 0 =
      Except.error PyErr.typeError := by
  constructor
  · exact claim_C10_amended.1 0 PyArg.noneArg 3
  · apply claim_C10_amended.2 1 0 _ [⟨0, 0, 0⟩, ⟨0, 0, 0⟩]
    · simp [TreeCluster.subcluster]
    · simp [TreeCluster.subcluster, centroid_list, centroid_value,
        TreeCluster.centroid, Bind.bind, Except.bind, pure, Except.pure]
    · simp
    · intro h
      have := h ⟨0, 0, 0⟩ (by simp) ⟨0, 0, 0⟩ (by simp)
      rw [chargers_to_km_station_zero] at this
      exact absurd this (lt_irrefl 0)

/-- C2: the claim says the distance function converts degrees to radians by
multiplying with pi/180 and so equals the great-circle reference.  The source
multiplies with (2*pi)/180 instead: at the in-range input (0, 0) and (0, 90)
(longitude, latitude) the code yields 6371*pi where the reference great-circle
definition yields 6371*(pi/2), so the two functions differ. -/
theorem claim_C2 :
    longitude_and_latitude_to_km 0 0 0 90 = 6371 * Real.pi ∧
    great_circle_reference 0 0 0 90 = 6371 * (Real.pi / 2) ∧
    longitude_and_latitude_to_km 0 0 0 90 ≠ great_circle_reference 0 0 0 90 := by
  have hzero : ((2 * Real.pi) / 180) * (0 : ℝ) = 0 := by ring
  have h90 : ((2 * Real.pi) / 180) * (90 : ℝ) = Real.pi := by ring
  have hc : cosine_sum 0 0 0 90 = -1 := by
    simp only [cosine_sum, hzero, h90]
    simp [Real.sin_pi, Real.cos_pi]
  have hcode : longitude_and_latitude_to_km 0 0 0 90 = 6371 * Real.pi := by
    simp only [longitude_and_latitude_to_km, hc, Real.arccos_neg_one]
  have hzero2 : (Real.pi / 180) * (0 : ℝ) = 0 := by ring
  have h902 : (Real.pi / 180) * (90 : ℝ) = Real.pi / 2 := by ring
  have href : great_circle_reference 0 0 0 90 = 6371 * (Real.pi / 2) := by
    simp only [great_circle_reference, hzero2, h902]
    simp [Real.cos_pi_div_two, Real.arccos_zero]
  refine ⟨hcode, href, ?_⟩
  rw [hcode, href]
  intro h
  nlinarith [Real.pi_pos]

/-- C3: the claim says the argument passed to `acos` is clamped into [-1, 1].
The source has no clamping step; in the exact-real embedding the cosine sum
happens to lie in [-1, 1] for every real input, so the unclamped code
coincides with a clamped variant - the clamp the spec mandates is absent and
only floating-point rounding can expose the difference. -/
theorem claim_C3 (long1 lat1 long2 lat2 : ℝ) :
    -1 ≤ cosine_sum long1 lat1 long2 lat2 ∧
    cosine_sum long1 lat1 long2 lat2 ≤ 1 ∧
    longitude_and_latitude_to_km long1 lat1 long2 lat2 =
      6371 * Real.arccos (max (-1) (min 1 (cosine_sum long1 lat1 long2 lat2))) := by
  have h := abs_cosine_sum_le_one long1 lat1 long2 lat2
  rw [abs_le] at h
  refine ⟨h.1, h.2, ?_⟩
  simp only [longitude_and_latitude_to_km]
  rw [min_eq_right h.2, max_eq_right h.1]
